import Mathlib

set_option maxHeartbeats 1000000

/-!
Shallow embedding of the dynamic_reload crate (src/lib.rs, src/error.rs).

Paths are modelled as lists of components; the filesystem, the platform
loader, the behaviour of copy attempts and the clock are oracles supplied
through `CopyEnv`/`World` values, so every operation of the crate becomes a
pure function of its inputs and that world.
-/

/-- A filesystem path (`PathBuf`), as its list of components. -/
abbrev FsPath := List String

/-- The part of `std::fs::Metadata` the crate consults: `is_file` and `len`. -/
structure Metadata where
  is_file : Bool
  len : Nat
deriving DecidableEq

/-- Outcome oracle for the `fs::metadata` / `fs::copy` calls inside
`try_copy`: `meta i` is the source metadata seen at attempt `i` (`none`
meaning the metadata call errored), `copyOk i` whether the `fs::copy` call
at attempt `i` succeeds. -/
structure CopyEnv where
  meta : Nat → Option Metadata
  copyOk : Nat → Bool

/-- Events recorded by the modelled `try_copy` loop, used to state its retry
policy (which calls it makes and which pauses it takes). -/
inductive CopyEvent where
  | metaCheck (i : Nat)
  | copyAttempt (i : Nat)
  | sleepMs (ms : Nat)
deriving DecidableEq

/-- The error enum of src/error.rs; `io::Error` payloads are modelled as
numeric codes. -/
inductive Error where
  | Load (e : Nat)
  | Copy (e : Nat) (src : FsPath) (dest : FsPath)
  | CopyTimeOut (src : FsPath) (dest : FsPath)
  | Find (name : String)
deriving DecidableEq

/-- A loaded library (struct `Lib` of src/lib.rs); the `libloading::Library`
handle is modelled as an opaque numeric id. -/
structure Lib where
  lib : Nat
  loaded_path : FsPath
  original_path : Option FsPath
deriving DecidableEq

instance : Inhabited Lib := ⟨⟨0, [], none⟩⟩

/-- `impl PartialEq for Lib`: equality compares `original_path` only. -/
def Lib.eq (a b : Lib) : Bool :=
  a.original_path == b.original_path

/-- The `UpdateState` passed to the host callback, merged with the
`Option<&Arc<Lib>>` argument the code pairs with it (`Some` old handle for
`Before`, `Some` new handle for `After`, `None` for `ReloadFailed`). -/
inductive UpdateState where
  | Before (lib : Lib)
  | After (lib : Lib)
  | ReloadFailed (e : Error)
deriving DecidableEq

/-- The `PlatformName` enum. -/
inductive PlatformName where
  | No
  | Yes
deriving DecidableEq

/-- Outcome oracle for `TempDir::new_in`: failure, or a created directory
path together with whether `Path::exists` reports it as existing. -/
inductive TempDirOutcome where
  | fail
  | ok (path : FsPath) (pathExists : Bool)

/-- The ambient world: filesystem metadata, the executable path
(`env::current_exe`), the behaviour of copy attempts per
source/destination pair, the platform loader (`Library::new`, returning a
handle or an error code) and the current time in milliseconds. -/
structure World where
  fs : FsPath → Option Metadata
  exePath : FsPath
  copyEnv : FsPath → FsPath → CopyEnv
  loader : FsPath → Except Nat Nat
  now_ms : Nat

/-- The `DynamicReload` state: registry, watcher presence, shadow directory
and search paths.  The watch channel is modelled by the event list handed
to `update`. -/
structure DynamicReload where
  libs : List Lib
  watcher : Bool
  shadow_dir : Option FsPath
  search_paths : List FsPath
deriving DecidableEq

/-- `Vec::swap_remove`: replace the element at `i` with the last element and
pop it (the crate only calls it with in-bounds indices). -/
def swapRemove (l : List Lib) (i : Nat) : List Lib :=
  match l.getLast? with
  | none => l
  | some last => (l.set i last).dropLast

namespace DynamicReload

/-- `get_dynamiclib_name`, Linux variant (the `cfg(target_os = "linux")`
branch): `foo -> libfoo.so`. -/
def get_dynamiclib_name (name : String) : String :=
  "lib" ++ name ++ ".so"

/-- `get_library_name`. -/
def get_library_name (name : String) (name_format : PlatformName) : String :=
  if name_format = PlatformName.Yes then get_dynamiclib_name name else name

/-- `is_file`: queries metadata and returns the path when it is a regular
file. -/
def is_file (fs : FsPath → Option Metadata) (path : FsPath) : Option FsPath :=
  match fs path with
  | some md => if md.is_file then some path else none
  | none => none

/-- `search_current_dir`: the bare name as a relative path. -/
def search_current_dir (fs : FsPath → Option Metadata) (name : String) : Option FsPath :=
  is_file fs [name]

/-- `search_relative_paths`: each configured search path joined with the
name, in configuration order, first hit wins. -/
def search_relative_paths (fs : FsPath → Option Metadata) (search_paths : List FsPath)
    (name : String) : Option FsPath :=
  match search_paths with
  | [] => none
  | p :: rest =>
    match is_file fs (p ++ [name]) with
    | some file => some file
    | none => search_relative_paths fs rest name

/-- `get_parent_dir` (`Path::parent`): `none` for the empty path, otherwise
drop the last component. -/
def get_parent_dir (path : FsPath) : Option FsPath :=
  match path with
  | [] => none
  | _ :: _ => some path.dropLast

/-- `search_backwards_from_file`: walk up through parent directories,
looking for the library file next to each ancestor.  The match on the path
structure inlines `get_parent_dir` (`none` exactly on the empty path). -/
def search_backwards_from_file (fs : FsPath → Option Metadata) (path : FsPath)
    (lib_name : String) : Option FsPath :=
  match path with
  | [] => none
  | a :: as =>
    let p := (a :: as).dropLast
    let new_path := p ++ [lib_name]
    if (is_file fs new_path).isSome then some new_path
    else search_backwards_from_file fs p lib_name
termination_by path.length
decreasing_by simp [List.length_dropLast]

/-- `search_backwards_from_exe`. -/
def search_backwards_from_exe (fs : FsPath → Option Metadata) (exePath : FsPath)
    (lib_name : String) : Option FsPath :=
  search_backwards_from_file fs exePath lib_name

/-- `search_dirs`: 1. current directory, 2. configured search paths,
3. backwards from the executable. -/
def search_dirs (fs : FsPath → Option Metadata) (search_paths : List FsPath)
    (exePath : FsPath) (name : String) (name_format : PlatformName) : Option FsPath :=
  let lib_name := get_library_name name name_format
  match search_current_dir fs lib_name with
  | some path => some path
  | none =>
    match search_relative_paths fs search_paths lib_name with
    | some path => some path
    | none => search_backwards_from_exe fs exePath lib_name

/-- The `try_copy` retry loop (`for _ in 0..10`), instrumented with an event
log; `n` is the remaining fuel, `i` the current attempt index.  A failed
`fs::copy` is ignored (the code comments: the file might be locked by the
compiler) and simply retried after the 100 ms sleep. -/
def try_copy_go (env : CopyEnv) (src dest : FsPath) :
    Nat → Nat → List CopyEvent × Except Error Unit
  | 0, _ => ([], Except.error (Error.CopyTimeOut src dest))
  | n + 1, i =>
    match env.meta i with
    | some md =>
      if 0 < md.len then
        if env.copyOk i then
          ([CopyEvent.metaCheck i, CopyEvent.copyAttempt i], Except.ok ())
        else
          let r := try_copy_go env src dest n (i + 1)
          (CopyEvent.metaCheck i :: CopyEvent.copyAttempt i :: CopyEvent.sleepMs 100 :: r.1, r.2)
      else
        let r := try_copy_go env src dest n (i + 1)
        (CopyEvent.metaCheck i :: CopyEvent.sleepMs 100 :: r.1, r.2)
    | none =>
      let r := try_copy_go env src dest n (i + 1)
      (CopyEvent.metaCheck i :: CopyEvent.sleepMs 100 :: r.1, r.2)

/-- `try_copy`: ten attempts starting at index 0. -/
def try_copy (env : CopyEnv) (src dest : FsPath) : List CopyEvent × Except Error Unit :=
  try_copy_go env src dest 10 0

/-- `format_filename` (default, timestamped variant): shadow dir joined with
`<now_ms>_<file_name>`.  The Rust code unwraps `file_name()`; every path the
crate passes here ends in a file name, so the empty-string default of the
model is never reached by those calls. -/
def format_filename (now_ms : Nat) (shadow_dir full_path : FsPath) : FsPath :=
  shadow_dir ++ [toString now_ms ++ "_" ++ (full_path.getLast?.getD "")]

/-- `init_library`: call the platform loader and wrap the handle. -/
def init_library (w : World) (org_path : Option FsPath) (path : FsPath) : Except Error Lib :=
  match w.loader path with
  | Except.ok l => Except.ok { lib := l, loaded_path := path, original_path := org_path }
  | Except.error e => Except.error (Error.Load e)

/-- `load_library`: with a shadow dir, stage a timestamped copy and record
the original path; without one, load in place and record no original. -/
def load_library (w : World) (shadow_dir : Option FsPath) (full_path : FsPath) :
    Except Error Lib :=
  match shadow_dir with
  | some sd =>
    let path := format_filename w.now_ms sd full_path
    match (try_copy (w.copyEnv full_path path) full_path path).2 with
    | Except.ok _ => init_library w (some full_path) path
    | Except.error e => Except.error e
  | none => init_library w none full_path

/-- `should_reload`: event file name equals the file name of the library's
original path (libraries with no original path never match). -/
def should_reload (reload_path : FsPath) (lib : Lib) : Bool :=
  match lib.original_path with
  | some p => reload_path.getLast? == p.getLast?
  | none => false

/-- `try_load_library`: resolve then load; `Find` when resolution fails. -/
def try_load_library (w : World) (s : DynamicReload) (name : String)
    (name_format : PlatformName) : Except Error Lib :=
  match search_dirs w.fs s.search_paths w.exePath name name_format with
  | some path => load_library w s.shadow_dir path
  | none => Except.error (Error.Find name)

/-- `add_library`: on success push the new library onto the registry (watch
registration only affects the watcher, not the registry, and is elided). -/
def add_library (w : World) (s : DynamicReload) (name : String)
    (name_format : PlatformName) : DynamicReload × Except Error Lib :=
  match try_load_library w s name name_format with
  | Except.ok lib => ({ s with libs := s.libs ++ [lib] }, Except.ok lib)
  | Except.error e => (s, Except.error e)

/-- `remove_lib`: `swap_remove` on the registry (the `no-unload` feature only
changes whether the dropped handle is leaked, not the registry contents). -/
def remove_lib (s : DynamicReload) (idx : Nat) : DynamicReload :=
  { s with libs := swapRemove s.libs idx }

/-- `reload_lib`: Before callback with the old handle, remove, reload from
`file_path`; then either push the new handle and call After with it, or call
ReloadFailed with the error.  The returned list is the callback trace in
invocation order. -/
def reload_lib (w : World) (s : DynamicReload) (index : Nat) (file_path : FsPath) :
    DynamicReload × List UpdateState :=
  let old := s.libs.getD index default
  let s1 := remove_lib s index
  match load_library w s.shadow_dir file_path with
  | Except.ok lib =>
    ({ s1 with libs := s1.libs ++ [lib] }, [UpdateState.Before old, UpdateState.After lib])
  | Except.error err =>
    (s1, [UpdateState.Before old, UpdateState.ReloadFailed err])

/-- `reload_libs`: iterate the registry indices downward from the length
captured before the loop, reloading every matching entry. -/
def reload_libs_go (w : World) (file_path : FsPath) :
    DynamicReload → Nat → DynamicReload × List UpdateState
  | s, 0 => (s, [])
  | s, i + 1 =>
    if should_reload file_path (s.libs.getD i default) then
      let r1 := reload_lib w s i file_path
      let r2 := reload_libs_go w file_path r1.1 i
      (r2.1, r1.2 ++ r2.2)
    else
      reload_libs_go w file_path s i

/-- `reload_libs`. -/
def reload_libs (w : World) (s : DynamicReload) (file_path : FsPath) :
    DynamicReload × List UpdateState :=
  reload_libs_go w file_path s s.libs.length

/-- `update` (the polling entry point): drain the queued change events and
run `reload_libs` for each; each event carries its own world since time
passes between events. -/
def update (s : DynamicReload) (events : List (World × FsPath)) :
    DynamicReload × List UpdateState :=
  match events with
  | [] => (s, [])
  | (w, fp) :: rest =>
    let r1 := reload_libs w s fp
    let r2 := update r1.1 rest
    (r2.1, r1.2 ++ r2.2)

/-- `get_temp_dir`: `none` when no dir was requested, when `TempDir::new_in`
fails, or when the created path does not exist (the code only logs in that
case). -/
def get_temp_dir (mk : String → TempDirOutcome) (shadow_dir : Option String) :
    Option FsPath :=
  match shadow_dir with
  | some dir =>
    match mk dir with
    | TempDirOutcome.ok td ex => if !ex then none else some td
    | TempDirOutcome.fail => none
  | none => none

/-- `get_search_paths`: each string becomes a path (canonicalisation, which
falls back to the unchanged path on error, is modelled as the identity). -/
def get_search_paths (search_paths : Option (List String)) : List FsPath :=
  match search_paths with
  | some paths => paths.map (fun p => [p])
  | none => []

/-- `DynamicReload::new`; watcher construction success is an oracle flag. -/
def new (mk : String → TempDirOutcome) (search_paths : Option (List String))
    (shadow_dir : Option String) (watcher_ok : Bool) : DynamicReload :=
  { libs := [], watcher := watcher_ok,
    shadow_dir := get_temp_dir mk shadow_dir,
    search_paths := get_search_paths search_paths }

end DynamicReload

/-- Whether a copy event is a byte-copy attempt. -/
def isCopyAttempt : CopyEvent → Bool
  | CopyEvent.copyAttempt _ => true
  | _ => false

/-- Whether a copy event is a sleep. -/
def isSleepEvent : CopyEvent → Bool
  | CopyEvent.sleepMs _ => true
  | _ => false

/-- Attempt `i` would succeed: metadata is available with non-zero length and
the copy call succeeds. -/
def goodAttempt (env : CopyEnv) (i : Nat) : Bool :=
  match env.meta i with
  | some md => decide (0 < md.len) && env.copyOk i
  | none => false

/-- Callback traces made of consecutive pairs: each `Before` immediately
followed by exactly one of `After` or `ReloadFailed`. -/
inductive TracePairs : List UpdateState → Prop where
  | nil : TracePairs []
  | afterPair (l l' : Lib) (t : List UpdateState) :
      TracePairs t → TracePairs (UpdateState.Before l :: UpdateState.After l' :: t)
  | failPair (l : Lib) (e : Error) (t : List UpdateState) :
      TracePairs t → TracePairs (UpdateState.Before l :: UpdateState.ReloadFailed e :: t)

/-- A world where every path is a regular non-empty file, copies succeed at
once and the loader accepts everything with handle 7; the clock reads 5 ms. -/
def wOk : World :=
  { fs := fun _ => some { is_file := true, len := 4 },
    exePath := ["exe"],
    copyEnv := fun _ _ => { meta := fun _ => some { is_file := true, len := 4 },
                            copyOk := fun _ => true },
    loader := fun _ => Except.ok 7,
    now_ms := 5 }

/-- A copy environment whose source metadata is always a valid non-empty
file but whose byte copy always fails with an I/O error. -/
def badCopyEnv : CopyEnv :=
  { meta := fun _ => some { is_file := true, len := 4 }, copyOk := fun _ => false }

/-- A library tracked from directory dirB. -/
def libB : Lib :=
  { lib := 3, loaded_path := ["sh", "0_foo.so"], original_path := some ["dirB", "foo.so"] }

/-- A registry holding only `libB`, with shadow copying enabled. -/
def s2state : DynamicReload :=
  { libs := [libB], watcher := true, shadow_dir := some ["sh"], search_paths := [] }

/-- An empty registry with shadow copying enabled. -/
def s5state : DynamicReload :=
  { libs := [], watcher := true, shadow_dir := some ["tmp"], search_paths := [] }

/-- A temp-dir oracle that always fails. -/
def mkFail : String → TempDirOutcome := fun _ => TempDirOutcome.fail

/-- A filesystem where only the bare working-directory candidate of
`libx.so` exists. -/
def fsCwd : FsPath → Option Metadata :=
  fun p => if p = ["libx.so"] then some { is_file := true, len := 4 } else none

/-- A filesystem where only the second configured search path holds the
file. -/
def fsRel : FsPath → Option Metadata :=
  fun p => if p = ["sp2", "n.so"] then some { is_file := true, len := 4 } else none

/-- The empty filesystem. -/
def fsNone : FsPath → Option Metadata := fun _ => none

/-- A world over the empty filesystem. -/
def wNone : World :=
  { fs := fsNone, exePath := ["e", "x"], copyEnv := fun _ _ => badCopyEnv,
    loader := fun _ => Except.ok 1, now_ms := 0 }

/-- An empty registry with one search path and no shadow dir. -/
def s7state : DynamicReload :=
  { libs := [], watcher := true, shadow_dir := none, search_paths := [["sp"]] }

/-- A copy environment where the first attempt already succeeds. -/
def okCopyEnv : CopyEnv :=
  { meta := fun _ => some { is_file := true, len := 4 }, copyOk := fun _ => true }

/-- A temp-dir oracle that creates a directory whose path does not exist. -/
def mkBad : String → TempDirOutcome := fun _ => TempDirOutcome.ok ["td"] false

/-- A registry holding one directly-loaded library (no original path). -/
def s10state : DynamicReload :=
  { libs := [{ lib := 1, loaded_path := ["a"], original_path := none }],
    watcher := true, shadow_dir := none, search_paths := [] }

/-- A filesystem where the file n exists only in a directory that lies on
no step of the search order (not the working directory, not a configured
search path, not an ancestor of the executable). -/
def fsElsewhere : FsPath → Option Metadata :=
  fun p => if p = ["other", "n"] then some { is_file := true, len := 4 } else none

/-- A world over that filesystem. -/
def wElse : World :=
  { fs := fsElsewhere, exePath := ["e", "x"], copyEnv := fun _ _ => badCopyEnv,
    loader := fun _ => Except.ok 1, now_ms := 0 }

namespace DynamicReload

/-- A successful shadowed load records the source as original path and the
timestamped shadow path as loaded path. -/
theorem load_library_shadow_ok {w : World} {sd fp : FsPath} {lib : Lib}
    (h : load_library w (some sd) fp = Except.ok lib) :
    lib.original_path = some fp ∧ lib.loaded_path = format_filename w.now_ms sd fp := by
  simp only [load_library, init_library] at h
  split at h
  · split at h
    · cases h
      exact ⟨rfl, rfl⟩
    · cases h
  · cases h

/-- A successful unshadowed load records no original path and loads in
place. -/
theorem load_library_none_ok {w : World} {fp : FsPath} {lib : Lib}
    (h : load_library w none fp = Except.ok lib) :
    lib.original_path = none ∧ lib.loaded_path = fp := by
  simp only [load_library, init_library] at h
  split at h
  · cases h
    exact ⟨rfl, rfl⟩
  · cases h

/-- Case analysis of one reload: either the load succeeds, the new library
is appended after the swap-removal, and the trace is Before/After; or the
load fails, nothing is appended, and the trace is Before/ReloadFailed. -/
theorem reload_lib_shape (w : World) (s : DynamicReload) (i : Nat) (fp : FsPath) :
    (∃ lib, load_library w s.shadow_dir fp = Except.ok lib ∧
      reload_lib w s i fp =
        ({ remove_lib s i with libs := (remove_lib s i).libs ++ [lib] },
         [UpdateState.Before (s.libs.getD i default), UpdateState.After lib])) ∨
    (∃ e, load_library w s.shadow_dir fp = Except.error e ∧
      reload_lib w s i fp =
        (remove_lib s i,
         [UpdateState.Before (s.libs.getD i default), UpdateState.ReloadFailed e])) := by
  unfold reload_lib
  cases h : load_library w s.shadow_dir fp with
  | ok lib => exact Or.inl ⟨lib, rfl, rfl⟩
  | error e => exact Or.inr ⟨e, rfl, rfl⟩

end DynamicReload

/-- Removing an in-bounds index shrinks the registry by exactly one. -/
theorem swapRemove_length {l : List Lib} {i : Nat} (h : i < l.length) :
    (swapRemove l i).length + 1 = l.length := by
  cases l with
  | nil => simp at h
  | cons a as =>
    have hgl : (a :: as).getLast? = some ((a :: as).getLast (by simp)) :=
      List.getLast?_eq_getLast _ _
    unfold swapRemove
    rw [hgl]
    simp [List.length_set, List.length_dropLast]

/-- Concatenation of pair traces is a pair trace. -/
theorem TracePairs.append {a b : List UpdateState}
    (ha : TracePairs a) (hb : TracePairs b) : TracePairs (a ++ b) := by
  induction ha with
  | nil => simpa using hb
  | afterPair l l' t ht ih => exact TracePairs.afterPair l l' _ ih
  | failPair l e t ht ih => exact TracePairs.failPair l e _ ih

/-- A library with no original path never matches a change event. -/
theorem should_reload_none {lib : Lib} (h : lib.original_path = none) (ev : FsPath) :
    DynamicReload.should_reload ev lib = false := by
  unfold DynamicReload.should_reload
  rw [h]

namespace DynamicReload

/-- Step equation: metadata call errors, so the loop sleeps and retries. -/
theorem try_copy_go_step_nometa {env : CopyEnv} (src dest : FsPath) {n i : Nat}
    (h : env.meta i = none) :
    try_copy_go env src dest (n + 1) i =
      (CopyEvent.metaCheck i :: CopyEvent.sleepMs 100 :: (try_copy_go env src dest n (i + 1)).1,
       (try_copy_go env src dest n (i + 1)).2) := by
  simp [try_copy_go, h]

/-- Step equation: the source reports size zero, so no copy is attempted. -/
theorem try_copy_go_step_empty {env : CopyEnv} (src dest : FsPath) {n i : Nat} {md : Metadata}
    (h : env.meta i = some md) (hl : ¬ 0 < md.len) :
    try_copy_go env src dest (n + 1) i =
      (CopyEvent.metaCheck i :: CopyEvent.sleepMs 100 :: (try_copy_go env src dest n (i + 1)).1,
       (try_copy_go env src dest n (i + 1)).2) := by
  simp [try_copy_go, h, hl]

/-- Step equation: the copy is attempted but its I/O fails; the error is
ignored and the loop sleeps and retries. -/
theorem try_copy_go_step_copyfail {env : CopyEnv} (src dest : FsPath) {n i : Nat} {md : Metadata}
    (h : env.meta i = some md) (hl : 0 < md.len) (hc : env.copyOk i = false) :
    try_copy_go env src dest (n + 1) i =
      (CopyEvent.metaCheck i :: CopyEvent.copyAttempt i :: CopyEvent.sleepMs 100 ::
         (try_copy_go env src dest n (i + 1)).1,
       (try_copy_go env src dest n (i + 1)).2) := by
  simp [try_copy_go, h, hl, hc]

/-- Step equation: the copy succeeds and the loop returns at once. -/
theorem try_copy_go_step_copyok {env : CopyEnv} (src dest : FsPath) {n i : Nat} {md : Metadata}
    (h : env.meta i = some md) (hl : 0 < md.len) (hc : env.copyOk i = true) :
    try_copy_go env src dest (n + 1) i =
      ([CopyEvent.metaCheck i, CopyEvent.copyAttempt i], Except.ok ()) := by
  simp [try_copy_go, h, hl, hc]

end DynamicReload

namespace DynamicReload

/-- The retry loop either succeeds or times out; no other error leaves it. -/
theorem try_copy_go_ok_or_timeout (env : CopyEnv) (src dest : FsPath) :
    ∀ n i, (try_copy_go env src dest n i).2 = Except.ok () ∨
      (try_copy_go env src dest n i).2 = Except.error (Error.CopyTimeOut src dest) := by
  intro n
  induction n with
  | zero => intro i; exact Or.inr rfl
  | succ n ih =>
    intro i
    cases h : env.meta i with
    | none => rw [try_copy_go_step_nometa src dest h]; exact ih (i + 1)
    | some md =>
      by_cases hl : 0 < md.len
      · cases hc : env.copyOk i with
        | true => rw [try_copy_go_step_copyok src dest h hl hc]; exact Or.inl rfl
        | false => rw [try_copy_go_step_copyfail src dest h hl hc]; exact ih (i + 1)
      · rw [try_copy_go_step_empty src dest h hl]; exact ih (i + 1)

/-- Every byte-copy attempt in the log lies in the fuel window and was made
only after the source metadata reported non-zero size. -/
theorem try_copy_go_attempt_mem (env : CopyEnv) (src dest : FsPath) :
    ∀ n i j, CopyEvent.copyAttempt j ∈ (try_copy_go env src dest n i).1 →
      i ≤ j ∧ j < i + n ∧ ∃ md, env.meta j = some md ∧ 0 < md.len := by
  intro n
  induction n with
  | zero => intro i j hj; simp [try_copy_go] at hj
  | succ n ih =>
    intro i j hj
    cases h : env.meta i with
    | none =>
      rw [try_copy_go_step_nometa src dest h] at hj
      simp only [List.mem_cons] at hj
      rcases hj with h1 | h1 | h1
      · cases h1
      · cases h1
      · rcases ih (i + 1) j h1 with ⟨ha, hb, hc⟩
        exact ⟨by omega, by omega, hc⟩
    | some md =>
      by_cases hl : 0 < md.len
      · cases hc : env.copyOk i with
        | true =>
          rw [try_copy_go_step_copyok src dest h hl hc] at hj
          simp only [List.mem_cons, List.not_mem_nil, or_false] at hj
          rcases hj with h1 | h1
          · cases h1
          · cases h1
            exact ⟨Nat.le_refl _, by omega, md, h, hl⟩
        | false =>
          rw [try_copy_go_step_copyfail src dest h hl hc] at hj
          simp only [List.mem_cons] at hj
          rcases hj with h1 | h1 | h1 | h1
          · cases h1
          · cases h1
            exact ⟨Nat.le_refl _, by omega, md, h, hl⟩
          · cases h1
          · rcases ih (i + 1) j h1 with ⟨ha, hb, hcc⟩
            exact ⟨by omega, by omega, hcc⟩
      · rw [try_copy_go_step_empty src dest h hl] at hj
        simp only [List.mem_cons] at hj
        rcases hj with h1 | h1 | h1
        · cases h1
        · cases h1
        · rcases ih (i + 1) j h1 with ⟨ha, hb, hcc⟩
          exact ⟨by omega, by omega, hcc⟩

/-- The loop succeeds exactly when some attempt in the fuel window would
succeed. -/
theorem try_copy_go_ok_iff (env : CopyEnv) (src dest : FsPath) :
    ∀ n i, (try_copy_go env src dest n i).2 = Except.ok () ↔
      ∃ j, i ≤ j ∧ j < i + n ∧ goodAttempt env j = true := by
  intro n
  induction n with
  | zero =>
    intro i
    constructor
    · intro h; cases h
    · rintro ⟨j, h1, h2, _⟩; omega
  | succ n ih =>
    intro i
    have hshift : ∀ hbad : goodAttempt env i = false,
        ((try_copy_go env src dest n (i + 1)).2 = Except.ok () ↔
          ∃ j, i ≤ j ∧ j < i + (n + 1) ∧ goodAttempt env j = true) := by
      intro hbad
      rw [ih (i + 1)]
      constructor
      · rintro ⟨j, h1, h2, h3⟩; exact ⟨j, by omega, by omega, h3⟩
      · rintro ⟨j, h1, h2, h3⟩
        have hji : j ≠ i := by
          intro he; rw [he, hbad] at h3; cases h3
        exact ⟨j, by omega, by omega, h3⟩
    cases h : env.meta i with
    | none =>
      rw [try_copy_go_step_nometa src dest h]
      exact hshift (by simp [goodAttempt, h])
    | some md =>
      by_cases hl : 0 < md.len
      · cases hc : env.copyOk i with
        | true =>
          rw [try_copy_go_step_copyok src dest h hl hc]
          have hgood : goodAttempt env i = true := by simp [goodAttempt, h, hl, hc]
          simp only [true_iff]
          exact ⟨i, Nat.le_refl _, by omega, hgood⟩
        | false =>
          rw [try_copy_go_step_copyfail src dest h hl hc]
          exact hshift (by simp [goodAttempt, h, hc])
      · rw [try_copy_go_step_empty src dest h hl]
        exact hshift (by simp [goodAttempt, h, hl])

/-- Once an attempt would succeed, the loop never looks past it: every
metadata check in the log has an index at most that of the first successful
attempt. -/
theorem try_copy_go_stop (env : CopyEnv) (src dest : FsPath) :
    ∀ n i j, i ≤ j → goodAttempt env j = true →
      ∀ k, CopyEvent.metaCheck k ∈ (try_copy_go env src dest n i).1 → k ≤ j := by
  intro n
  induction n with
  | zero => intro i j _ _ k hk; simp [try_copy_go] at hk
  | succ n ih =>
    intro i j hij hj k hk
    cases h : env.meta i with
    | none =>
      rw [try_copy_go_step_nometa src dest h] at hk
      simp only [List.mem_cons] at hk
      rcases hk with h1 | h1 | h1
      · cases h1; omega
      · cases h1
      · have hji : j ≠ i := by
          intro he; rw [he] at hj; simp [goodAttempt, h] at hj
        exact ih (i + 1) j (by omega) hj k h1
    | some md =>
      by_cases hl : 0 < md.len
      · cases hc : env.copyOk i with
        | true =>
          rw [try_copy_go_step_copyok src dest h hl hc] at hk
          simp only [List.mem_cons, List.not_mem_nil, or_false] at hk
          rcases hk with h1 | h1
          · cases h1; omega
          · cases h1
        | false =>
          rw [try_copy_go_step_copyfail src dest h hl hc] at hk
          simp only [List.mem_cons] at hk
          rcases hk with h1 | h1 | h1 | h1
          · cases h1; omega
          · cases h1
          · cases h1
          · have hji : j ≠ i := by
              intro he; rw [he] at hj; simp [goodAttempt, h, hc] at hj
            exact ih (i + 1) j (by omega) hj k h1
      · rw [try_copy_go_step_empty src dest h hl] at hk
        simp only [List.mem_cons] at hk
        rcases hk with h1 | h1 | h1
        · cases h1; omega
        · cases h1
        · have hji : j ≠ i := by
            intro he; rw [he] at hj; simp [goodAttempt, h, hl] at hj
          exact ih (i + 1) j (by omega) hj k h1

/-- At most one byte-copy attempt per unit of fuel. -/
theorem try_copy_go_attempt_count (env : CopyEnv) (src dest : FsPath) :
    ∀ n i, ((try_copy_go env src dest n i).1.filter isCopyAttempt).length ≤ n := by
  intro n
  induction n with
  | zero => intro i; simp [try_copy_go]
  | succ n ih =>
    intro i
    cases h : env.meta i with
    | none =>
      rw [try_copy_go_step_nometa src dest h]
      simp only [List.filter, isCopyAttempt]
      exact Nat.le_succ_of_le (ih (i + 1))
    | some md =>
      by_cases hl : 0 < md.len
      · cases hc : env.copyOk i with
        | true =>
          rw [try_copy_go_step_copyok src dest h hl hc]
          simp [List.filter, isCopyAttempt]
        | false =>
          rw [try_copy_go_step_copyfail src dest h hl hc]
          simp only [List.filter, isCopyAttempt, List.length_cons]
          exact Nat.succ_le_succ (ih (i + 1))
      · rw [try_copy_go_step_empty src dest h hl]
        simp only [List.filter, isCopyAttempt]
        exact Nat.le_succ_of_le (ih (i + 1))

/-- Every pause in the log is exactly 100 milliseconds. -/
theorem try_copy_go_sleep_val (env : CopyEnv) (src dest : FsPath) :
    ∀ n i ms, CopyEvent.sleepMs ms ∈ (try_copy_go env src dest n i).1 → ms = 100 := by
  intro n
  induction n with
  | zero => intro i ms h; simp [try_copy_go] at h
  | succ n ih =>
    intro i ms hm
    cases h : env.meta i with
    | none =>
      rw [try_copy_go_step_nometa src dest h] at hm
      simp only [List.mem_cons] at hm
      rcases hm with h1 | h1 | h1
      · cases h1
      · cases h1; rfl
      · exact ih (i + 1) ms h1
    | some md =>
      by_cases hl : 0 < md.len
      · cases hc : env.copyOk i with
        | true =>
          rw [try_copy_go_step_copyok src dest h hl hc] at hm
          simp only [List.mem_cons, List.not_mem_nil, or_false] at hm
          rcases hm with h1 | h1
          · cases h1
          · cases h1
        | false =>
          rw [try_copy_go_step_copyfail src dest h hl hc] at hm
          simp only [List.mem_cons] at hm
          rcases hm with h1 | h1 | h1 | h1
          · cases h1
          · cases h1
          · cases h1; rfl
          · exact ih (i + 1) ms h1
      · rw [try_copy_go_step_empty src dest h hl] at hm
        simp only [List.mem_cons] at hm
        rcases hm with h1 | h1 | h1
        · cases h1
        · cases h1; rfl
        · exact ih (i + 1) ms h1

/-- At most one pause per unit of fuel. -/
theorem try_copy_go_sleep_count (env : CopyEnv) (src dest : FsPath) :
    ∀ n i, ((try_copy_go env src dest n i).1.filter isSleepEvent).length ≤ n := by
  intro n
  induction n with
  | zero => intro i; simp [try_copy_go]
  | succ n ih =>
    intro i
    cases h : env.meta i with
    | none =>
      rw [try_copy_go_step_nometa src dest h]
      simp only [List.filter, isSleepEvent, List.length_cons]
      exact Nat.succ_le_succ (ih (i + 1))
    | some md =>
      by_cases hl : 0 < md.len
      · cases hc : env.copyOk i with
        | true =>
          rw [try_copy_go_step_copyok src dest h hl hc]
          simp [List.filter, isSleepEvent]
        | false =>
          rw [try_copy_go_step_copyfail src dest h hl hc]
          simp only [List.filter, isSleepEvent, List.length_cons]
          exact Nat.succ_le_succ (ih (i + 1))
      · rw [try_copy_go_step_empty src dest h hl]
        simp only [List.filter, isSleepEvent, List.length_cons]
        exact Nat.succ_le_succ (ih (i + 1))

end DynamicReload

namespace DynamicReload

/-- If the file lies next to no ancestor of the given path (the ancestors
are exactly its proper prefixes, i.e. `take k` for `k` below its length),
the backwards search fails. -/
theorem search_backwards_from_file_none (fs : FsPath → Option Metadata) (n : String) :
    ∀ p : FsPath, (∀ k, k < p.length → is_file fs (p.take k ++ [n]) = none) →
      search_backwards_from_file fs p n = none := by
  have aux : ∀ fuel p, p.length ≤ fuel →
      (∀ k, k < p.length → is_file fs (p.take k ++ [n]) = none) →
      search_backwards_from_file fs p n = none := by
    intro fuel
    induction fuel with
    | zero =>
      intro p hp _
      cases p with
      | nil => rw [search_backwards_from_file]
      | cons a as => simp at hp
    | succ fuel ih =>
      intro p hp h
      cases p with
      | nil => rw [search_backwards_from_file]
      | cons a as =>
        rw [search_backwards_from_file]
        have hcand : is_file fs ((a :: as).dropLast ++ [n]) = none := by
          rw [List.dropLast_eq_take]
          exact h ((a :: as).length - 1) (by simp)
        simp only [hcand, Option.isSome_none, Bool.false_eq_true, if_false]
        apply ih ((a :: as).dropLast)
        · simp [List.length_dropLast] at *
          omega
        · intro k hk
          rw [List.length_dropLast] at hk
          have hdl : (a :: as).dropLast.take k = (a :: as).take k := by
            rw [List.dropLast_eq_take, List.take_take]
            congr 1
            omega
          rw [hdl]
          exact h k (by omega)
  intro p h
  exact aux p.length p (Nat.le_refl _) h

/-- If no configured search path holds the file, the relative search
fails. -/
theorem search_relative_paths_none (fs : FsPath → Option Metadata) (n : String) :
    ∀ sps : List FsPath, (∀ sp ∈ sps, is_file fs (sp ++ [n]) = none) →
      search_relative_paths fs sps n = none := by
  intro sps
  induction sps with
  | nil => intro _; rfl
  | cons p rest ih =>
    intro h
    rw [search_relative_paths]
    simp only [h p (by simp)]
    exact ih (fun sp hsp => h sp (by simp [hsp]))

/-- First match wins among the configured search paths: if every earlier
path misses and `p` hits, the relative search returns the candidate under
`p`. -/
theorem search_relative_paths_first (fs : FsPath → Option Metadata) (n : String) :
    ∀ sps1 p sps2, (∀ q ∈ sps1, is_file fs (q ++ [n]) = none) →
      is_file fs (p ++ [n]) = some (p ++ [n]) →
      search_relative_paths fs (sps1 ++ p :: sps2) n = some (p ++ [n]) := by
  intro sps1
  induction sps1 with
  | nil =>
    intro p sps2 _ hp
    rw [List.nil_append, search_relative_paths, hp]
  | cons q rest ih =>
    intro p sps2 hmiss hp
    rw [List.cons_append, search_relative_paths, hmiss q (by simp)]
    exact ih p sps2 (fun r hr => hmiss r (by simp [hr])) hp

/-- Each reload produces exactly a Before followed by one of After or
ReloadFailed. -/
theorem reload_lib_trace (w : World) (s : DynamicReload) (i : Nat) (fp : FsPath) :
    (∃ l', (reload_lib w s i fp).2 =
        [UpdateState.Before (s.libs.getD i default), UpdateState.After l'] ∧
        load_library w s.shadow_dir fp = Except.ok l') ∨
    (∃ e, (reload_lib w s i fp).2 =
        [UpdateState.Before (s.libs.getD i default), UpdateState.ReloadFailed e] ∧
        load_library w s.shadow_dir fp = Except.error e) := by
  rcases reload_lib_shape w s i fp with ⟨lib, hl, hr⟩ | ⟨e, hl, hr⟩
  · exact Or.inl ⟨lib, by rw [hr], hl⟩
  · exact Or.inr ⟨e, by rw [hr], hl⟩

/-- The trace of a full registry pass is made of Before/After and
Before/ReloadFailed pairs. -/
theorem reload_libs_go_trace_pairs (w : World) (fp : FsPath) :
    ∀ i s, TracePairs (reload_libs_go w fp s i).2 := by
  intro i
  induction i with
  | zero => intro s; exact TracePairs.nil
  | succ i ih =>
    intro s
    rw [reload_libs_go]
    by_cases h : should_reload fp (s.libs.getD i default) = true
    · simp only [h, if_true]
      rcases reload_lib_trace w s i fp with ⟨l', ht, _⟩ | ⟨e, ht, _⟩
      · rw [ht]
        exact TracePairs.afterPair _ l' _ (ih (reload_lib w s i fp).1)
      · rw [ht]
        exact TracePairs.failPair _ e _ (ih (reload_lib w s i fp).1)
    · simp only [h, Bool.false_eq_true, if_false]
      exact ih s

/-- A registry whose members all lack an original path is left untouched by
a change event, with no callback made. -/
theorem reload_libs_go_no_original (w : World) (fp : FsPath) :
    ∀ i s, (∀ l ∈ s.libs, l.original_path = none) →
      reload_libs_go w fp s i = (s, []) := by
  intro i
  induction i with
  | zero => intro s _; rfl
  | succ i ih =>
    intro s hs
    rw [reload_libs_go]
    have hfalse : should_reload fp (s.libs.getD i default) = false := by
      by_cases hlen : i < s.libs.length
      · have hmem : s.libs.getD i default ∈ s.libs := by
          rw [List.getD_eq_getElem?_getD, List.getElem?_eq_getElem hlen]
          exact List.getElem_mem hlen
        exact should_reload_none (hs _ hmem) fp
      · rw [List.getD_eq_default _ _ (by omega)]
        exact should_reload_none rfl fp
    simp only [hfalse, Bool.false_eq_true, if_false]
    exact ih s hs

end DynamicReload

namespace DynamicReload

/-- The staged shadow path is never the source path: its file name carries
the timestamp prefix, so the last components differ. -/
theorem format_filename_ne (ts : Nat) (sd fp : FsPath) : format_filename ts sd fp ≠ fp := by
  unfold format_filename
  intro he
  generalize hx : toString ts ++ "_" ++ (fp.getLast?.getD "") = x at he
  have h1 : fp.getLast? = some x := by
    rw [← he]
    exact List.getLast?_concat _
  have h2 : fp.getLast?.getD "" = x := by rw [h1]; rfl
  rw [h2] at hx
  have h3 := congrArg String.length hx
  have hu : ("_" : String).length = 1 := rfl
  simp only [String.length_append, hu] at h3
  omega

/-- The callback trace of a whole polling pass is made of pairs. -/
theorem update_trace_pairs : ∀ (evs : List (World × FsPath)) (s : DynamicReload),
    TracePairs (update s evs).2 := by
  intro evs
  induction evs with
  | nil => intro s; exact TracePairs.nil
  | cons ev rest ih =>
    intro s
    rcases ev with ⟨w, fp⟩
    rw [update]
    exact TracePairs.append (reload_libs_go_trace_pairs w fp s.libs.length s) (ih _)

end DynamicReload

/-- C1 (corrected): staging never reports a `Copy` error.  An I/O error
raised by the byte-copy call is ignored and retried, and every failing
staging call — whether the source never became valid and non-empty or the
copy itself kept failing — ends in `CopyTimeOut` carrying both paths. -/
theorem try_copy_ok_or_timeout_never_copy (env : CopyEnv) (src dest : FsPath) :
    ((DynamicReload.try_copy env src dest).2 = Except.ok () ∨
     (DynamicReload.try_copy env src dest).2 =
       Except.error (Error.CopyTimeOut src dest)) ∧
    (∀ e p q, (DynamicReload.try_copy env src dest).2 ≠ Except.error (Error.Copy e p q)) := by
  have h := DynamicReload.try_copy_go_ok_or_timeout env src dest 10 0
  refine ⟨h, ?_⟩
  intro e p q hcontra
  unfold DynamicReload.try_copy at hcontra
  rcases h with h | h
  · rw [h] at hcontra; simp at hcontra
  · rw [h] at hcontra; simp at hcontra

/-- C1 counterexample: a staging call whose source metadata is always a
valid non-empty file but whose byte copy raises an I/O error at every
attempt (the copy is really attempted, as the log shows) ends in
`CopyTimeOut`, not in a `Copy` error as the claim states. -/
theorem try_copy_persistent_io_error_times_out :
    CopyEvent.copyAttempt 0 ∈ (DynamicReload.try_copy badCopyEnv ["s.so"] ["d.so"]).1 ∧
    (DynamicReload.try_copy badCopyEnv ["s.so"] ["d.so"]).2 =
      Except.error (Error.CopyTimeOut ["s.so"] ["d.so"]) :=
  ⟨by decide, rfl⟩

/-- C1 witness: the never-`Copy` theorem applied at a concrete staging
call. -/
theorem try_copy_ok_or_timeout_never_copy_witness :
    (DynamicReload.try_copy badCopyEnv ["s.so"] ["d.so"]).2 ≠
      Except.error (Error.Copy 0 ["s.so"] ["d.so"]) :=
  (try_copy_ok_or_timeout_never_copy badCopyEnv ["s.so"] ["d.so"]).2 0 ["s.so"] ["d.so"]

/-- C2 (corrected): when a reload succeeds, the new generation is staged
and mapped from the change event's path — its recorded original path is the
event path (when shadowing is on) and its loaded path is the event path
staged into the shadow directory (or the event path itself when shadowing
is off).  It coincides with the matched library's own original path only
when the event names that very path. -/
theorem reload_lib_stages_event_path (w : World) (s : DynamicReload) (i : Nat)
    (fp : FsPath) (l l' : Lib)
    (h : (DynamicReload.reload_lib w s i fp).2 =
      [UpdateState.Before l, UpdateState.After l']) :
    l'.original_path = s.shadow_dir.map (fun _ => fp) ∧
    l'.loaded_path = (match s.shadow_dir with
      | some sd => DynamicReload.format_filename w.now_ms sd fp
      | none => fp) := by
  rcases DynamicReload.reload_lib_trace w s i fp with ⟨lib, ht, hld⟩ | ⟨e, ht, hld⟩
  · rw [ht] at h
    have hlib : l' = lib := by
      injection h with h1 h2
      injection h2 with h3 h4
      injection h3 with h5
      exact h5.symm
    subst hlib
    cases hsd : s.shadow_dir with
    | some sd =>
      rw [hsd] at hld
      rcases DynamicReload.load_library_shadow_ok hld with ⟨ho, hl⟩
      exact ⟨by simp [ho, hsd], by rw [hl]⟩
    | none =>
      rw [hsd] at hld
      rcases DynamicReload.load_library_none_ok hld with ⟨ho, hl⟩
      exact ⟨by simp [ho, hsd], by rw [hl]⟩
  · rw [ht] at h
    injection h with h1 h2
    injection h2 with h3 h4
    cases h3

/-- C2 counterexample: a tracked library whose original path is
dirB/foo.so is matched (by file name) by a change event at dirA/foo.so, and
the reload stages and records dirA/foo.so — not the matched library's own
original path. -/
theorem reload_uses_event_path_not_original :
    DynamicReload.should_reload ["dirA", "foo.so"] libB = true ∧
    s2state.libs.getD 0 default = libB ∧
    (DynamicReload.reload_lib wOk s2state 0 ["dirA", "foo.so"]).2 =
      [UpdateState.Before libB,
       UpdateState.After { lib := 7, loaded_path := ["sh", "5_foo.so"],
                           original_path := some ["dirA", "foo.so"] }] ∧
    some (["dirA", "foo.so"] : FsPath) ≠ libB.original_path := by
  refine ⟨by decide, by decide, by decide, by decide⟩

/-- C2 witness: the amended theorem applied to that concrete reload. -/
theorem reload_lib_stages_event_path_witness :
    ({ lib := 7, loaded_path := ["sh", "5_foo.so"],
       original_path := some ["dirA", "foo.so"] } : Lib).original_path =
      s2state.shadow_dir.map (fun _ => (["dirA", "foo.so"] : FsPath)) ∧
    ({ lib := 7, loaded_path := ["sh", "5_foo.so"],
       original_path := some ["dirA", "foo.so"] } : Lib).loaded_path =
      (match s2state.shadow_dir with
       | some sd => DynamicReload.format_filename wOk.now_ms sd ["dirA", "foo.so"]
       | none => ["dirA", "foo.so"]) :=
  reload_lib_stages_event_path wOk s2state 0 ["dirA", "foo.so"] libB
    { lib := 7, loaded_path := ["sh", "5_foo.so"],
      original_path := some ["dirA", "foo.so"] } (by decide)

/-- C3 (confirmed): each matched reload invokes the callback exactly once
with Before carrying the old handle and then exactly once with either After
(carrying the new handle) or ReloadFailed (carrying the error); the trace
of a whole registry pass, and of a whole polling call, consists of exactly
such pairs, all delivered before control returns. -/
theorem reload_callback_before_then_single_outcome :
    (∀ (w : World) (s : DynamicReload) (i : Nat) (fp : FsPath),
      (∃ l', (DynamicReload.reload_lib w s i fp).2 =
          [UpdateState.Before (s.libs.getD i default), UpdateState.After l']) ∨
      (∃ e, (DynamicReload.reload_lib w s i fp).2 =
          [UpdateState.Before (s.libs.getD i default), UpdateState.ReloadFailed e])) ∧
    (∀ (w : World) (s : DynamicReload) (fp : FsPath),
      TracePairs (DynamicReload.reload_libs w s fp).2) ∧
    (∀ (s : DynamicReload) (evs : List (World × FsPath)),
      TracePairs (DynamicReload.update s evs).2) := by
  refine ⟨?_, ?_, ?_⟩
  · intro w s i fp
    rcases DynamicReload.reload_lib_trace w s i fp with ⟨l', ht, _⟩ | ⟨e, ht, _⟩
    · exact Or.inl ⟨l', ht⟩
    · exact Or.inr ⟨e, ht⟩
  · intro w s fp
    exact DynamicReload.reload_libs_go_trace_pairs w fp s.libs.length s
  · intro s evs
    exact DynamicReload.update_trace_pairs evs s

/-- C4 (corrected): library equality holds exactly when the `original_path`
fields are equal, regardless of loaded path or handle; with shadow copying
enabled, libraries loaded from different sources record different original
paths and are therefore never equal — but without shadowing both record
`None` and compare equal (see the counterexample). -/
theorem lib_eq_iff_original_path :
    (∀ a b : Lib, Lib.eq a b = true ↔ a.original_path = b.original_path) ∧
    (∀ (w : World) (sd p q : FsPath) (lp lq : Lib),
      DynamicReload.load_library w (some sd) p = Except.ok lp →
      DynamicReload.load_library w (some sd) q = Except.ok lq →
      p ≠ q → Lib.eq lp lq = false) := by
  constructor
  · intro a b
    simp [Lib.eq]
  · intro w sd p q lp lq hp hq hpq
    rcases DynamicReload.load_library_shadow_ok hp with ⟨hop, _⟩
    rcases DynamicReload.load_library_shadow_ok hq with ⟨hoq, _⟩
    simp [Lib.eq, hop, hoq, hpq]

/-- C4 counterexample: with shadow copying disabled, two libraries loaded
from the distinct sources a.so and b.so both record `original_path = none`
and the crate's equality declares them equal. -/
theorem lib_eq_no_shadow_counterexample :
    DynamicReload.load_library wOk none ["a.so"] =
      Except.ok { lib := 7, loaded_path := ["a.so"], original_path := none } ∧
    DynamicReload.load_library wOk none ["b.so"] =
      Except.ok { lib := 7, loaded_path := ["b.so"], original_path := none } ∧
    Lib.eq { lib := 7, loaded_path := ["a.so"], original_path := none }
           { lib := 7, loaded_path := ["b.so"], original_path := none } = true ∧
    (["a.so"] : FsPath) ≠ ["b.so"] :=
  ⟨rfl, rfl, by decide, by decide⟩

/-- C4 witness: the amended theorem applied to two concrete shadowed loads
from different sources. -/
theorem lib_eq_iff_original_path_witness :
    Lib.eq { lib := 7, loaded_path := ["sh", "5_a.so"], original_path := some ["a.so"] }
           { lib := 7, loaded_path := ["sh", "5_b.so"], original_path := some ["b.so"] }
      = false :=
  lib_eq_iff_original_path.2 wOk ["sh"] ["a.so"] ["b.so"]
    { lib := 7, loaded_path := ["sh", "5_a.so"], original_path := some ["a.so"] }
    { lib := 7, loaded_path := ["sh", "5_b.so"], original_path := some ["b.so"] }
    rfl rfl (by decide)

/-- C5 (corrected): a reload replaces rather than adds — it removes the
matched entry and inserts at most one new one, so the registry never grows
during a reload (size preserved on success, shrunk by one on failure).  The
global at-most-one-entry-per-original-path invariant, however, does not
hold, because `add_library` appends unconditionally (see the
counterexample). -/
theorem reload_lib_never_grows_registry (w : World) (s : DynamicReload) (i : Nat)
    (fp : FsPath) (h : i < s.libs.length) :
    (DynamicReload.reload_lib w s i fp).1.libs.length = s.libs.length ∨
    (DynamicReload.reload_lib w s i fp).1.libs.length + 1 = s.libs.length := by
  rcases DynamicReload.reload_lib_shape w s i fp with ⟨lib, _, hr⟩ | ⟨e, _, hr⟩
  · left
    rw [hr]
    simp only [DynamicReload.remove_lib, List.length_append, List.length_cons,
      List.length_nil]
    have := swapRemove_length h
    omega
  · right
    rw [hr]
    simp only [DynamicReload.remove_lib]
    exact swapRemove_length h

/-- C5 counterexample: adding the same library twice (same resolved source
path, shadow copying enabled) leaves two registry entries with the same
`original_path`, violating the claimed reachable-state invariant. -/
theorem add_library_duplicate_counterexample :
    ((DynamicReload.add_library wOk
        (DynamicReload.add_library wOk s5state "foo" PlatformName.Yes).1
        "foo" PlatformName.Yes).1.libs.map (fun l => l.original_path)) =
      [some ["libfoo.so"], some ["libfoo.so"]] := by
  decide

/-- C5 witness: the amended theorem applied to a concrete in-bounds
reload. -/
theorem reload_lib_never_grows_registry_witness :
    (DynamicReload.reload_lib wOk s2state 0 ["dirA", "foo.so"]).1.libs.length =
      s2state.libs.length ∨
    (DynamicReload.reload_lib wOk s2state 0 ["dirA", "foo.so"]).1.libs.length + 1 =
      s2state.libs.length :=
  reload_lib_never_grows_registry wOk s2state 0 ["dirA", "foo.so"] (by decide)

/-- C6 (confirmed): the resolver searches in fixed priority order with first
match winning — a working-directory hit short-circuits everything (so a
name present both there and in a search path resolves to the
working-directory candidate), the configured search paths are consulted in
configuration order, and the executable/ancestor search runs only when the
two earlier steps fail. -/
theorem search_order_priority :
    (∀ (fs : FsPath → Option Metadata) (sps : List FsPath) (exe : FsPath)
       (name : String) (fmt : PlatformName),
      DynamicReload.is_file fs [DynamicReload.get_library_name name fmt] =
        some [DynamicReload.get_library_name name fmt] →
      DynamicReload.search_dirs fs sps exe name fmt =
        some [DynamicReload.get_library_name name fmt]) ∧
    (∀ (fs : FsPath → Option Metadata) (n : String) (sps1 : List FsPath) (p : FsPath)
       (sps2 : List FsPath),
      (∀ q ∈ sps1, DynamicReload.is_file fs (q ++ [n]) = none) →
      DynamicReload.is_file fs (p ++ [n]) = some (p ++ [n]) →
      DynamicReload.search_relative_paths fs (sps1 ++ p :: sps2) n = some (p ++ [n])) ∧
    (∀ (fs : FsPath → Option Metadata) (sps : List FsPath) (exe : FsPath)
       (name : String) (fmt : PlatformName),
      DynamicReload.is_file fs [DynamicReload.get_library_name name fmt] = none →
      DynamicReload.search_relative_paths fs sps
        (DynamicReload.get_library_name name fmt) = none →
      DynamicReload.search_dirs fs sps exe name fmt =
        DynamicReload.search_backwards_from_file fs exe
          (DynamicReload.get_library_name name fmt)) := by
  refine ⟨?_, ?_, ?_⟩
  · intro fs sps exe name fmt h
    simp only [DynamicReload.search_dirs, DynamicReload.search_current_dir]
    rw [h]
  · intro fs n sps1 p sps2 hmiss hp
    exact DynamicReload.search_relative_paths_first fs n sps1 p sps2 hmiss hp
  · intro fs sps exe name fmt h1 h2
    simp only [DynamicReload.search_dirs, DynamicReload.search_current_dir,
      DynamicReload.search_backwards_from_exe]
    rw [h1, h2]

/-- C6 witness: the three priority statements applied to concrete
filesystems. -/
theorem search_order_priority_witness :
    DynamicReload.search_dirs fsCwd [["sp"]] ["exe"] "x" PlatformName.Yes =
      some ["libx.so"] ∧
    DynamicReload.search_relative_paths fsRel [["sp1"], ["sp2"]] "n.so" =
      some ["sp2", "n.so"] ∧
    DynamicReload.search_dirs fsNone [["sp"]] ["exe"] "n" PlatformName.No =
      DynamicReload.search_backwards_from_file fsNone ["exe"] "n" :=
  ⟨search_order_priority.1 fsCwd [["sp"]] ["exe"] "x" PlatformName.Yes (by decide),
   search_order_priority.2.1 fsRel "n.so" [["sp1"]] ["sp2"] [] (by decide) (by decide),
   search_order_priority.2.2 fsNone [["sp"]] ["exe"] "n" PlatformName.No
     (by decide) (by decide)⟩

/-- C7 (confirmed): when no candidate of the search order — the bare name
in the working directory, the name under each configured search path, and
the name next to each ancestor of the executable (its proper prefixes) —
is a regular file, resolution returns `none` and `add_library` returns
exactly the `Find` error carrying the name, leaving the registry
untouched.  Files elsewhere on the filesystem are irrelevant. -/
theorem resolve_exhaustive_find_error (w : World) (s : DynamicReload) (name : String)
    (fmt : PlatformName)
    (h1 : DynamicReload.is_file w.fs [DynamicReload.get_library_name name fmt] = none)
    (h2 : ∀ sp ∈ s.search_paths, DynamicReload.is_file w.fs
      (sp ++ [DynamicReload.get_library_name name fmt]) = none)
    (h3 : ∀ k, k < w.exePath.length → DynamicReload.is_file w.fs
      (w.exePath.take k ++ [DynamicReload.get_library_name name fmt]) = none) :
    DynamicReload.search_dirs w.fs s.search_paths w.exePath name fmt = none ∧
    (DynamicReload.add_library w s name fmt).2 = Except.error (Error.Find name) ∧
    (DynamicReload.add_library w s name fmt).1 = s := by
  have hn : DynamicReload.search_dirs w.fs s.search_paths w.exePath name fmt = none := by
    simp only [DynamicReload.search_dirs, DynamicReload.search_current_dir,
      DynamicReload.search_backwards_from_exe]
    rw [h1, DynamicReload.search_relative_paths_none w.fs _ s.search_paths h2]
    exact DynamicReload.search_backwards_from_file_none w.fs _ w.exePath h3
  have ha : DynamicReload.add_library w s name fmt = (s, Except.error (Error.Find name)) := by
    unfold DynamicReload.add_library DynamicReload.try_load_library
    rw [hn]
  exact ⟨hn, by rw [ha], by rw [ha]⟩

/-- C7 witness: resolution over the empty filesystem, and over a filesystem
where the file exists only in a directory off the search order — every
search-order candidate misses, so the premise holds although the file
exists somewhere. -/
theorem resolve_exhaustive_find_error_witness :
    (DynamicReload.search_dirs wNone.fs s7state.search_paths wNone.exePath "x"
        PlatformName.No = none ∧
     (DynamicReload.add_library wNone s7state "x" PlatformName.No).2 =
        Except.error (Error.Find "x") ∧
     (DynamicReload.add_library wNone s7state "x" PlatformName.No).1 = s7state) ∧
    (DynamicReload.search_dirs wElse.fs s7state.search_paths wElse.exePath "n"
        PlatformName.No = none ∧
     (DynamicReload.add_library wElse s7state "n" PlatformName.No).2 =
        Except.error (Error.Find "n") ∧
     (DynamicReload.add_library wElse s7state "n" PlatformName.No).1 = s7state) :=
  ⟨resolve_exhaustive_find_error wNone s7state "x" PlatformName.No
      rfl (by decide) (by decide),
   resolve_exhaustive_find_error wElse s7state "n" PlatformName.No
      (by decide) (by decide) (by decide)⟩

namespace DynamicReload

/-- A successful load through `try_load_library` with no shadow directory
records no original path. -/
theorem try_load_library_none_shadow {w : World} {s : DynamicReload} {name : String}
    {fmt : PlatformName} {lib : Lib} (hs : s.shadow_dir = none)
    (h : try_load_library w s name fmt = Except.ok lib) :
    lib.original_path = none := by
  unfold try_load_library at h
  cases hsd : search_dirs w.fs s.search_paths w.exePath name fmt with
  | some path =>
    rw [hsd] at h
    rw [hs] at h
    exact (load_library_none_ok h).1
  | none =>
    rw [hsd] at h
    cases h

end DynamicReload

/-- C8 (confirmed): the shadow-copy retry loop is bounded — the byte copy is
attempted only when the source metadata reports non-zero size, there are at
most 10 attempts with 100 ms pauses (at most 10 of them, about a one-second
budget), the loop returns success exactly when some attempt within the
budget succeeds and stops at the first such attempt, and otherwise it
terminates with `CopyTimeOut`. -/
theorem try_copy_bounded_retry (env : CopyEnv) (src dest : FsPath) :
    ((DynamicReload.try_copy env src dest).2 = Except.ok () ∨
     (DynamicReload.try_copy env src dest).2 =
        Except.error (Error.CopyTimeOut src dest)) ∧
    (∀ i, CopyEvent.copyAttempt i ∈ (DynamicReload.try_copy env src dest).1 →
      i < 10 ∧ ∃ md, env.meta i = some md ∧ 0 < md.len) ∧
    ((DynamicReload.try_copy env src dest).1.filter isCopyAttempt).length ≤ 10 ∧
    (∀ ms, CopyEvent.sleepMs ms ∈ (DynamicReload.try_copy env src dest).1 → ms = 100) ∧
    ((DynamicReload.try_copy env src dest).1.filter isSleepEvent).length ≤ 10 ∧
    ((DynamicReload.try_copy env src dest).2 = Except.ok () ↔
      ∃ i, i < 10 ∧ goodAttempt env i = true) ∧
    (∀ i, i < 10 → goodAttempt env i = true →
      ∀ k, CopyEvent.metaCheck k ∈ (DynamicReload.try_copy env src dest).1 → k ≤ i) := by
  refine ⟨?_, ?_, ?_, ?_, ?_, ?_, ?_⟩
  · exact DynamicReload.try_copy_go_ok_or_timeout env src dest 10 0
  · intro i hi
    rcases DynamicReload.try_copy_go_attempt_mem env src dest 10 0 i hi with ⟨_, hb, hc⟩
    exact ⟨by omega, hc⟩
  · exact DynamicReload.try_copy_go_attempt_count env src dest 10 0
  · intro ms hm
    exact DynamicReload.try_copy_go_sleep_val env src dest 10 0 ms hm
  · exact DynamicReload.try_copy_go_sleep_count env src dest 10 0
  · unfold DynamicReload.try_copy
    rw [DynamicReload.try_copy_go_ok_iff env src dest 10 0]
    constructor
    · rintro ⟨j, _, h2, h3⟩; exact ⟨j, by omega, h3⟩
    · rintro ⟨j, h1, h3⟩; exact ⟨j, by omega, by omega, h3⟩
  · intro i _ hgood k hk
    exact DynamicReload.try_copy_go_stop env src dest 10 0 i (Nat.zero_le _) hgood k hk

/-- C8 witness: the bounded-retry theorem applied to concrete copy
environments. -/
theorem try_copy_bounded_retry_witness :
    (0 < 10 ∧ ∃ md, badCopyEnv.meta 0 = some md ∧ 0 < md.len) ∧
    (100 = 100) ∧
    (0 ≤ 0) :=
  ⟨(try_copy_bounded_retry badCopyEnv ["s.so"] ["d.so"]).2.1 0 (by decide),
   (try_copy_bounded_retry badCopyEnv ["s.so"] ["d.so"]).2.2.2.1 100 (by decide),
   (try_copy_bounded_retry okCopyEnv ["s.so"] ["d.so"]).2.2.2.2.2.2 0 (by decide)
     (by decide) 0 (by decide)⟩

/-- C9 (confirmed): with shadow copying enabled, the loaded path is the
shadow directory joined with the timestamp-prefixed source file name and is
never equal to the source path; with shadow copying disabled, the loaded
path is the source path unchanged. -/
theorem shadow_staging_path :
    (∀ (w : World) (sd fp : FsPath) (lib : Lib),
      DynamicReload.load_library w (some sd) fp = Except.ok lib →
      lib.loaded_path = DynamicReload.format_filename w.now_ms sd fp ∧
      lib.loaded_path ≠ fp) ∧
    (∀ (w : World) (fp : FsPath) (lib : Lib),
      DynamicReload.load_library w none fp = Except.ok lib →
      lib.loaded_path = fp) := by
  constructor
  · intro w sd fp lib h
    rcases DynamicReload.load_library_shadow_ok h with ⟨_, hl⟩
    refine ⟨hl, ?_⟩
    rw [hl]
    exact DynamicReload.format_filename_ne w.now_ms sd fp
  · intro w fp lib h
    exact (DynamicReload.load_library_none_ok h).2

/-- C9 witness: a concrete shadowed load and a concrete direct load. -/
theorem shadow_staging_path_witness :
    (({ lib := 7, loaded_path := ["sh", "5_a.so"], original_path := some ["a.so"] } : Lib).loaded_path =
        DynamicReload.format_filename wOk.now_ms ["sh"] ["a.so"] ∧
     ({ lib := 7, loaded_path := ["sh", "5_a.so"], original_path := some ["a.so"] } : Lib).loaded_path ≠
        ["a.so"]) ∧
    ({ lib := 7, loaded_path := ["a.so"], original_path := none } : Lib).loaded_path = ["a.so"] :=
  ⟨shadow_staging_path.1 wOk ["sh"] ["a.so"]
      { lib := 7, loaded_path := ["sh", "5_a.so"], original_path := some ["a.so"] } rfl,
   shadow_staging_path.2 wOk ["a.so"]
      { lib := 7, loaded_path := ["a.so"], original_path := none } rfl⟩

/-- C10 (confirmed): when the requested shadow directory cannot be set up —
`TempDir::new_in` fails or the created path does not exist — construction
still yields a state, with no shadow directory recorded; every library
added to such a state records `original_path = none`, such libraries match
no change event, and a registry of such libraries is never touched by a
polling pass. -/
theorem failed_shadow_dir_disables_reload :
    (∀ (mk : String → TempDirOutcome) (sps : Option (List String)) (dir : String)
       (b : Bool), mk dir = TempDirOutcome.fail →
      (DynamicReload.new mk sps (some dir) b).shadow_dir = none ∧
      (DynamicReload.new mk sps (some dir) b).libs = []) ∧
    (∀ (mk : String → TempDirOutcome) (sps : Option (List String)) (dir : String)
       (b : Bool) (p : FsPath), mk dir = TempDirOutcome.ok p false →
      (DynamicReload.new mk sps (some dir) b).shadow_dir = none) ∧
    (∀ (w : World) (s : DynamicReload) (name : String) (fmt : PlatformName) (lib : Lib),
      s.shadow_dir = none →
      (DynamicReload.add_library w s name fmt).2 = Except.ok lib →
      lib.original_path = none) ∧
    (∀ (w : World) (s : DynamicReload) (name : String) (fmt : PlatformName),
      s.shadow_dir = none →
      ((DynamicReload.add_library w s name fmt).1.shadow_dir = none ∧
       ((∀ l ∈ s.libs, l.original_path = none) →
        ∀ l ∈ (DynamicReload.add_library w s name fmt).1.libs,
          l.original_path = none))) ∧
    (∀ (ev : FsPath) (lib : Lib), lib.original_path = none →
      DynamicReload.should_reload ev lib = false) ∧
    (∀ (w : World) (fp : FsPath) (s : DynamicReload),
      (∀ l ∈ s.libs, l.original_path = none) →
      DynamicReload.reload_libs w s fp = (s, [])) := by
  refine ⟨?_, ?_, ?_, ?_, ?_, ?_⟩
  · intro mk sps dir b h
    constructor
    · simp [DynamicReload.new, DynamicReload.get_temp_dir, h]
    · rfl
  · intro mk sps dir b p h
    simp [DynamicReload.new, DynamicReload.get_temp_dir, h]
  · intro w s name fmt lib hs hadd
    unfold DynamicReload.add_library at hadd
    cases ht : DynamicReload.try_load_library w s name fmt with
    | ok lib0 =>
      rw [ht] at hadd
      have hadd2 : Except.ok (ε := Error) lib0 = Except.ok lib := hadd
      injection hadd2 with hlib
      subst hlib
      exact DynamicReload.try_load_library_none_shadow hs ht
    | error e =>
      rw [ht] at hadd
      cases hadd
  · intro w s name fmt hs
    cases ht : DynamicReload.try_load_library w s name fmt with
    | ok lib0 =>
      constructor
      · unfold DynamicReload.add_library
        rw [ht]
        exact hs
      · intro hall l hl
        unfold DynamicReload.add_library at hl
        rw [ht] at hl
        simp only [List.mem_append, List.mem_singleton] at hl
        rcases hl with hl | hl
        · exact hall l hl
        · subst hl
          exact DynamicReload.try_load_library_none_shadow hs ht
    | error e =>
      constructor
      · unfold DynamicReload.add_library
        rw [ht]
        exact hs
      · intro hall l hl
        unfold DynamicReload.add_library at hl
        rw [ht] at hl
        exact hall l hl
  · intro ev lib h
    exact should_reload_none h ev
  · intro w fp s h
    exact DynamicReload.reload_libs_go_no_original w fp s.libs.length s h

/-- C10 witness: the theorem applied to concrete failing temp-dir oracles
and a concrete shadowless registry. -/
theorem failed_shadow_dir_disables_reload_witness :
    ((DynamicReload.new mkFail none (some "sd") true).shadow_dir = none ∧
     (DynamicReload.new mkFail none (some "sd") true).libs = []) ∧
    (DynamicReload.new mkBad none (some "sd") true).shadow_dir = none ∧
    ({ lib := 7, loaded_path := ["x"], original_path := none } : Lib).original_path = none ∧
    DynamicReload.should_reload ["ev"] default = false ∧
    DynamicReload.reload_libs wOk s10state ["ev"] = (s10state, []) :=
  ⟨failed_shadow_dir_disables_reload.1 mkFail none "sd" true rfl,
   failed_shadow_dir_disables_reload.2.1 mkBad none "sd" true ["td"] rfl,
   failed_shadow_dir_disables_reload.2.2.1 wOk s7state "x" PlatformName.No
     { lib := 7, loaded_path := ["x"], original_path := none } rfl rfl,
   failed_shadow_dir_disables_reload.2.2.2.2.1 ["ev"] default rfl,
   failed_shadow_dir_disables_reload.2.2.2.2.2 wOk ["ev"] s10state (by decide)⟩
